import Mathlib

/-!
Verification development for the agro dashboard repository.

The repository ships three variants of the same admin-dashboard backend:
* `simple_server.py` — a Flask app over in-memory product/order collections
  seeded at startup (the only variant with mutable catalog state);
* `standalone_server.py` — a standard-library HTTP handler serving static
  files and JSON fixture files, with hand-rolled CORS and path parsing;
* `app.py` — a plain Flask app serving the same JSON fixture files.

Every definition below is a shallow embedding of the corresponding Python
source. Decimal amounts (Python floats, all of them integral or exactly
representable in the source) are modelled as rationals; Python dicts and
JSON values are modelled by the `Json` inductive; the mutable module-level
collections of `simple_server.py` are modelled by explicit state passing
over `ServerState`.
-/

namespace Agro

/-- Model of a Python/JSON value as produced by json.load and consumed by
json.dumps. -/
inductive Json where
  | null : Json
  | bool (b : Bool) : Json
  | num (q : ℚ) : Json
  | str (s : String) : Json
  | arr (xs : List Json) : Json
  | obj (fields : List (String × Json)) : Json

/-- Escape of a single character inside a JSON string literal (quote and
backslash; control-character and non-ASCII escapes are not modelled, no
claim depends on them). -/
def escapeChar (c : Char) : String :=
  if c = '"' then "\\\"" else if c = '\\' then "\\\\" else String.singleton c

/-- Escape of a string body for json.dumps output. -/
def escapeStr (s : String) : String := String.join (s.toList.map escapeChar)

mutual
/-- Models Python json.dumps with its default separators. Numbers are
rendered from the rational model: integral values by their integer part,
which covers every number the sources serialize. -/
def dumps : Json → String
  | .null => "null"
  | .bool true => "true"
  | .bool false => "false"
  | .num q => if q.den = 1 then toString q.num else toString q.num ++ "/" ++ toString q.den
  | .str s => "\"" ++ escapeStr s ++ "\""
  | .arr xs => "[" ++ dumpsArr xs ++ "]"
  | .obj fs => "\x7b" ++ dumpsObj fs ++ "\x7d"

/-- Comma-separated rendering of a JSON array body. -/
def dumpsArr : List Json → String
  | [] => ""
  | [x] => dumps x
  | x :: y :: xs => dumps x ++ ", " ++ dumpsArr (y :: xs)

/-- Comma-separated rendering of a JSON object body. -/
def dumpsObj : List (String × Json) → String
  | [] => ""
  | [(k, v)] => "\"" ++ escapeStr k ++ "\": " ++ dumps v
  | (k, v) :: y :: xs => "\"" ++ escapeStr k ++ "\": " ++ dumps v ++ ", " ++ dumpsObj (y :: xs)
end

/-- Models Python str.startswith. -/
def pyStartsWith (s pre : String) : Bool := pre.toList.isPrefixOf s.toList

/-- Helper for `pySplit`: walks the characters, cutting at the separator. -/
def pySplitAux (sep : Char) : List Char → List Char → List String
  | [], acc => [String.mk acc.reverse]
  | c :: cs, acc =>
    if c = sep then String.mk acc.reverse :: pySplitAux sep cs []
    else pySplitAux sep cs (c :: acc)

/-- Models Python str.split(sep) for a one-character separator: splits at
every occurrence and keeps empty segments. -/
def pySplit (s : String) (sep : Char) : List String := pySplitAux sep s.toList []

/-- Fuel-indexed worker for `pyReplace`; the fuel starts at the length of
the subject string, and since the pattern is nonempty every step consumes
at least one character, so the fuel never runs out on the initial call. -/
def pyReplaceAux (old new : List Char) : Nat → List Char → List Char
  | _, [] => []
  | 0, l => l
  | fuel + 1, c :: cs =>
    if old.isPrefixOf (c :: cs) then
      new ++ pyReplaceAux old new fuel ((c :: cs).drop old.length)
    else
      c :: pyReplaceAux old new fuel cs

/-- Models Python str.replace(old, new) for a nonempty pattern: replaces
every non-overlapping occurrence left to right. The empty pattern, which
Python treats specially and the sources never use, is modelled as the
identity. -/
def pyReplace (s old new : String) : String :=
  if old.toList.isEmpty then s
  else String.mk (pyReplaceAux old.toList new.toList s.toList.length s.toList)

/-- Models Python int(str): optional surrounding whitespace, an optional
sign, then one or more decimal digits (underscore grouping and non-ASCII
digits are not modelled; no claim depends on them). Returns none when the
string does not parse, where Python raises ValueError. -/
def pyInt? (s : String) : Option Int :=
  let t := ((s.toList.dropWhile Char.isWhitespace).reverse.dropWhile Char.isWhitespace).reverse
  let core : List Char → Option Nat := fun cs =>
    if cs ≠ [] ∧ cs.all Char.isDigit then
      some (cs.foldl (fun a c => a * 10 + (c.toNat - 48)) 0)
    else none
  match t with
  | '-' :: rest => (core rest).map (fun n => -(n : Int))
  | '+' :: rest => (core rest).map (fun n => (n : Int))
  | cs => (core cs).map (fun n => (n : Int))

/-- Models the f-string 03d padding used for ORD/CUST codes in
create_order. -/
def format03 (n : Nat) : String :=
  let s := toString n
  if s.length < 3 then String.mk (List.replicate (3 - s.length) '0') ++ s else s

/-! Data model of `simple_server.py` (the dataclasses Product and Order). -/

/-- Product dataclass of simple_server.py. -/
structure Product where
  id : Int
  product_id : String
  category_id : String
  product_name : String
  quantity_per_pack : Int
  price : ℚ
  image_url : String
  status : String
  description : String
deriving DecidableEq

/-- Order dataclass of simple_server.py. -/
structure Order where
  id : Int
  order_id : String
  customer_id : String
  customer_name : String
  phone : String
  address : String
  total_price : ℚ
  order_status : String
  order_date : String
  items : String
deriving DecidableEq

/-- Seed product list of generate_sample_products. -/
def generate_sample_products : List Product :=
  [⟨1, "PRD001", "electronics", "لابتوب Dell", 1, 45000,
    "https://picsum.photos/seed/laptop1/200/200.jpg", "active", "لابتوب عالي الأداء"⟩,
   ⟨2, "PRD002", "electronics", "هاتف Samsung", 1, 25000,
    "https://picsum.photos/seed/phone1/200/200.jpg", "active", "هاتف ذكي متطور"⟩,
   ⟨3, "PRD003", "clothing", "تيشيرت رجالي", 1, 1500,
    "https://picsum.photos/seed/shirt1/200/200.jpg", "active", "تيشيرت قطن"⟩,
   ⟨4, "PRD004", "clothing", "جينز", 1, 3500,
    "https://picsum.photos/seed/jeans1/200/200.jpg", "active", "بنطال جينز"⟩,
   ⟨5, "PRD005", "food", "قهوة", 1, 800,
    "https://picsum.photos/seed/coffee1/200/200.jpg", "active", "قهوة عربية"⟩,
   ⟨6, "PRD006", "food", "شاي", 1, 500,
    "https://picsum.photos/seed/tea1/200/200.jpg", "active", "شاي أخضر"⟩,
   ⟨7, "PRD007", "books", "رواية عربية", 1, 1200,
    "https://picsum.photos/seed/book1/200/200.jpg", "active", "رواية أدبية"⟩,
   ⟨8, "PRD008", "books", "كتاب برمجة", 1, 3500,
    "https://picsum.photos/seed/book2/200/200.jpg", "active", "كتاب تقني"⟩]

/-- Seed order list of generate_sample_orders. -/
def generate_sample_orders : List Order :=
  [⟨1, "ORD001", "CUST001", "أحمد محمد", "0551234567", "الجزائر العاصمة",
    45000, "pending", "2024-01-15", "لابتوب Dell x1"⟩,
   ⟨2, "ORD002", "CUST002", "فاطمة علي", "0559876543", "وهران",
    25000, "processing", "2024-01-14", "هاتف Samsung x1"⟩,
   ⟨3, "ORD003", "CUST003", "محمد سعيد", "0554567890", "قسنطينة",
    5000, "shipped", "2024-01-13", "تيشيرت x2, جينز x1"⟩,
   ⟨4, "ORD004", "CUST004", "خديجة عمر", "0553216549", "البليدة",
    1300, "delivered", "2024-01-12", "قهوة x1, شاي x1"⟩]

/-- In-memory state of simple_server.py: the two module-level collections
products and orders. -/
structure ServerState where
  products : List Product
  orders : List Order
deriving DecidableEq

/-- State at process start: the seeded collections. -/
def seedState : ServerState :=
  { products := generate_sample_products, orders := generate_sample_orders }

/-- Handler get_products of simple_server.py: returns the product
collection (serialization to JSON dicts is elided). -/
def get_products (s : ServerState) : List Product := s.products

/-- Handler get_orders of simple_server.py: returns the order collection. -/
def get_orders (s : ServerState) : List Order := s.orders

/-- Shape of the stats dict computed by get_stats. -/
structure Stats where
  totalProducts : Nat
  totalOrders : Nat
  pendingOrders : Nat
  totalRevenue : ℚ
  recentOrders : List Order
deriving DecidableEq

/-- Handler get_stats of simple_server.py, computed from the current
state. -/
def get_stats (s : ServerState) : Stats :=
  { totalProducts := s.products.length
    totalOrders := s.orders.length
    pendingOrders := (s.orders.filter (fun o => o.order_status == "pending")).length
    totalRevenue :=
      ((s.orders.filter (fun o => o.order_status != "cancelled")).map Order.total_price).sum
    recentOrders := s.orders.take 5 }

/-- JSON-dict bodies of the form status/message returned by the mutation
handlers. -/
structure ApiMsg where
  status : String
  message : String
deriving DecidableEq

/-- Handler delete_product of simple_server.py: rebinds the products
global to the sublist of products whose id differs, and unconditionally
reports success. -/
def delete_product (product_id : Int) (s : ServerState) : ServerState × ApiMsg :=
  ({ s with products := s.products.filter (fun p => p.id != product_id) },
   { status := "success", message := "Product deleted" })

/-- Request body of create_order: data.get is modelled by Option fields
(none when the key is absent). -/
structure OrderPayload where
  customerName : Option String
  customerPhone : Option String
  customerAddress : Option String
  totalAmount : Option ℚ
  items : Option Json

/-- Payload with every field absent. -/
def emptyPayload : OrderPayload := ⟨none, none, none, none, none⟩

/-- Handler create_order of simple_server.py. The current calendar date
datetime.datetime.now().strftime is passed in as `today`; defaults follow
the data.get calls of the source. Returns the new state and the created
order (echoed in the response body). -/
def create_order (data : OrderPayload) (today : String) (s : ServerState) :
    ServerState × Order :=
  let n : Nat := s.orders.length + 1
  let newOrder : Order :=
    { id := (n : Int)
      order_id := "ORD" ++ format03 n
      customer_id := "CUST" ++ format03 n
      customer_name := data.customerName.getD ""
      phone := data.customerPhone.getD ""
      address := data.customerAddress.getD ""
      total_price := data.totalAmount.getD 0
      order_status := "pending"
      order_date := today
      items := dumps (data.items.getD (Json.arr [])) }
  ({ s with orders := s.orders ++ [newOrder] }, newOrder)

/-- Handler sync_google_sheets of simple_server.py: touches no state and
returns a canned success body. -/
def sync_google_sheets (s : ServerState) : ServerState × ApiMsg :=
  (s, { status := "success", message := "Data synced successfully" })

/-! Reachability: the only routes of simple_server.py that rebind or mutate
the module-level collections are delete_product (rebinds products) and
create_order (appends to orders); every other handler only reads the state,
which the embedding reflects by giving them read-only signatures. -/

/-- Mutating operations of simple_server.py. -/
inductive Op where
  | deleteProduct (product_id : Int) : Op
  | createOrder (data : OrderPayload) (today : String) : Op

/-- State transition of one mutating request. -/
def applyOp (s : ServerState) : Op → ServerState
  | .deleteProduct pid => (delete_product pid s).1
  | .createOrder data today => (create_order data today s).1

/-- State after a sequence of mutating requests. -/
def runOps (s : ServerState) (ops : List Op) : ServerState := ops.foldl applyOp s

/-- Reachable in-memory states: the seed state followed by any sequence of
delete_product and create_order requests. -/
def Reachable (s : ServerState) : Prop := ∃ ops : List Op, runOps seedState ops = s

/-- Order ids of a collection of n orders as laid out by the source: the
k-th order carries id k+1. -/
def ordIds (n : Nat) : List Int := (List.range n).map (fun k => ((k + 1 : Nat) : Int))

/-- Inductive invariant of the reachable states: product ids are distinct,
and the order ids are exactly 1..n in order. -/
def Inv (s : ServerState) : Prop :=
  (s.products.map Product.id).Nodup ∧ s.orders.map Order.id = ordIds s.orders.length

/-! Model of `standalone_server.py` (standard-library variant). The file
system of fixture files is a parameter fs mapping a relative path to the
parsed JSON content of an existing file (os.path.exists is modelled by fs
returning some). -/

/-- HTTP response as emitted by the standalone handler: status line,
headers in emission order, and body. -/
structure HttpResponse where
  status : Nat
  headers : List (String × String)
  body : Json

/-- Models BaseHTTPRequestHandler.send_error: the given status with the
standard library error page; send_error attaches no custom headers, in
particular none of the CORS headers. -/
def sendError (code : Nat) (msg : String) : HttpResponse :=
  { status := code
    headers := [("Content-Type", "text/html;charset=utf-8"), ("Connection", "close")]
    body := Json.str msg }

/-- Success JSON response as emitted by the standalone handlers: 200 with
the content type and the permissive CORS origin header. -/
def okJson (d : Json) : HttpResponse :=
  { status := 200
    headers := [("Content-type", "application/json"), ("Access-Control-Allow-Origin", "*")]
    body := d }

/-- The CORS origin header sent by the standalone handlers. -/
def corsOrigin : String × String := ("Access-Control-Allow-Origin", "*")

/-- Endpoint-to-fixture-file map api_files of handle_api_get. -/
def api_files : List (String × String) :=
  [("stats", "api/admin/api/stats.json"),
   ("products", "api/admin/api/products.json"),
   ("orders", "api/admin/api/stats.json")]

/-- Endpoint extraction of handle_api_get: strip the API prefix, then strip
every remaining slash. -/
def endpointOf (path : String) : String :=
  pyReplace (pyReplace path "/admin/api/" "") "/" ""

/-- Handler handle_api_get of standalone_server.py. For the orders endpoint
the source calls data.get, which succeeds on a dict and raises (caught as a
500) on any other JSON value. -/
def handle_api_get (fs : String → Option Json) (path : String) : HttpResponse :=
  match api_files.lookup (endpointOf path) with
  | some file_path =>
    match fs file_path with
    | some data =>
      if endpointOf path == "orders" then
        match data with
        | Json.obj fields => okJson ((fields.lookup "recentOrders").getD (Json.arr []))
        | _ => sendError 500 "Server error: AttributeError"
      else okJson data
    | none => sendError 404 "API endpoint not found"
  | none => sendError 404 "API endpoint not found"

/-- Modelled from the spec: the static-file branch of do_GET delegates to
SimpleHTTPRequestHandler (code outside this repository); per the spec it
resolves the path against the document root doc and returns the file bytes
with 200, or a not-found result if absent. -/
def serve_static (doc : String → Option String) (path : String) : HttpResponse :=
  match doc path with
  | some content => { status := 200, headers := [], body := Json.str content }
  | none => sendError 404 "File not found"

/-- Method handler do_GET of standalone_server.py. -/
def do_GET (fs : String → Option Json) (doc : String → Option String)
    (path : String) : HttpResponse :=
  if pyStartsWith path "/admin/api/" then handle_api_get fs path
  else serve_static doc path

/-- Response body for a created order in the standalone variant. -/
def orderCreatedMsg : Json :=
  Json.obj [("status", Json.str "success"), ("message", Json.str "Order created")]

/-- Response body for the sheet-sync branch in the standalone variant. -/
def syncedMsg : Json :=
  Json.obj [("status", Json.str "success"), ("message", Json.str "Data synced successfully")]

/-- Response body for a deleted product in the standalone variant. -/
def productDeletedMsg : Json :=
  Json.obj [("status", Json.str "success"), ("message", Json.str "Product deleted")]

/-- Handler handle_api_post of standalone_server.py. contentLength is the
raw Content-Length header (none when absent, in which case int(None)
raises a TypeError that the blanket except turns into a 500; a non-integer
value raises ValueError, likewise a 500). The body is read but never
parsed. -/
def handle_api_post (contentLength : Option String) (body : String)
    (path : String) : HttpResponse :=
  match contentLength with
  | none => sendError 500 "Server error: TypeError"
  | some cl =>
    match pyInt? cl with
    | none => sendError 500 "Server error: ValueError"
    | some _ =>
      if path == "/admin/api/orders" then okJson orderCreatedMsg
      else if path == "/admin/sync/google-sheets" then okJson syncedMsg
      else sendError 404 "API endpoint not found"

/-- Method handler do_POST of standalone_server.py: only paths under the
API prefix reach handle_api_post. -/
def do_POST (contentLength : Option String) (body : String)
    (path : String) : HttpResponse :=
  if pyStartsWith path "/admin/api/" then handle_api_post contentLength body path
  else sendError 404 "Not found"

/-- Method handler do_DELETE of standalone_server.py. The handler holds no
product collection at all — its inputs are just the path — so no deletion
can occur; the comment in the source reads delete logic would go here. -/
def do_DELETE (path : String) : HttpResponse :=
  if pyStartsWith path "/admin/products/" then
    if 4 ≤ (pySplit path '/').length then
      match pyInt? ((pySplit path '/').getD 3 "") with
      | some _ => okJson productDeletedMsg
      | none => sendError 400 "Invalid product ID"
    else sendError 400 "Invalid request"
  else sendError 404 "Not found"

/-- Fixed CORS preflight response of do_OPTIONS. -/
def preflightResponse : HttpResponse :=
  { status := 200
    headers := [("Access-Control-Allow-Origin", "*"),
                ("Access-Control-Allow-Methods", "GET, POST, DELETE, OPTIONS"),
                ("Access-Control-Allow-Headers", "Content-Type")]
    body := Json.null }

/-- Method handler do_OPTIONS of standalone_server.py: answers every
OPTIONS request with the fixed preflight response, never consulting the
path or any other handler. -/
def do_OPTIONS (path : String) : HttpResponse := preflightResponse

/-! Model of `app.py` (plain-Flask fixture variant). app.py configures no
CORS, so its responses carry no Access-Control-Allow-Origin header. -/

/-- Response of flask jsonify in app.py: 200 with the JSON content type and
no CORS headers. -/
def flaskJson (d : Json) : HttpResponse :=
  { status := 200, headers := [("Content-Type", "application/json")], body := d }

/-- Fixture loader load_mock_data of app.py: a missing fixture file raises
FileNotFoundError, which the handler swallows to return the empty list. -/
def load_mock_data (fs : String → Option Json) (filename : String) : Json :=
  (fs ("api/admin/api/" ++ filename ++ ".json")).getD (Json.arr [])

/-- Handler get_stats of app.py. -/
def app_get_stats (fs : String → Option Json) : HttpResponse :=
  flaskJson (load_mock_data fs "stats")

/-- Uncaught-exception response of Flask: a 500 error page. -/
def flaskError500 : HttpResponse :=
  { status := 500, headers := [("Content-Type", "text/html;charset=utf-8")]
    body := Json.str "Internal Server Error" }

/-- Handler get_orders of app.py: the recentOrders member of the stats
fixture. When load_mock_data yields a list (in particular the empty-list
fallback for a missing fixture), the .get call raises AttributeError,
which Flask reports as a 500. -/
def app_get_orders (fs : String → Option Json) : HttpResponse :=
  match load_mock_data fs "stats" with
  | Json.obj fields => flaskJson ((fields.lookup "recentOrders").getD (Json.arr []))
  | _ => flaskError500

/-- Handler delete_product of app.py: a pure no-op that reports success. -/
def app_delete_product (product_id : Int) : ApiMsg :=
  { status := "success", message := "Product deleted" }

/-- Handler sync_google_sheets of app.py: reports success, touches
nothing. -/
def app_sync_google_sheets : ApiMsg :=
  { status := "success", message := "Data synced successfully" }

/-! Helper lemmas: the inductive invariant of the reachable states. -/

lemma ordIds_succ (n : Nat) : ordIds (n + 1) = ordIds n ++ [((n + 1 : Nat) : Int)] := by
  simp [ordIds, List.range_succ]

lemma inv_seed : Inv seedState := by
  constructor
  · decide
  · decide

lemma inv_applyOp (s : ServerState) (op : Op) (h : Inv s) : Inv (applyOp s op) := by
  obtain ⟨hp, ho⟩ := h
  cases op with
  | deleteProduct pid =>
      refine ⟨?_, ho⟩
      exact List.Nodup.sublist (List.Sublist.map Product.id (List.filter_sublist _)) hp
  | createOrder data today =>
      refine ⟨hp, ?_⟩
      simp only [applyOp, create_order]
      simp [ho, ordIds_succ]

lemma inv_runOps (ops : List Op) (s : ServerState) (h : Inv s) : Inv (runOps s ops) := by
  induction ops generalizing s with
  | nil => exact h
  | cons op rest ih => exact ih (applyOp s op) (inv_applyOp s op h)

lemma reachable_inv (s : ServerState) (h : Reachable s) : Inv s := by
  obtain ⟨ops, rfl⟩ := h
  exact inv_runOps ops seedState inv_seed

lemma inv_orders_nodup (s : ServerState) (h : Inv s) : (s.orders.map Order.id).Nodup := by
  rw [h.2]
  refine List.Nodup.map ?_ (List.nodup_range _)
  intro a b hab
  simp only at hab
  have h2 : a + 1 = b + 1 := by exact_mod_cast hab
  omega

lemma inv_order_id_le (s : ServerState) (h : Inv s) :
    ∀ o ∈ s.orders, o.id ≤ (s.orders.length : Int) := by
  intro o hmem
  have : o.id ∈ s.orders.map Order.id := List.mem_map_of_mem Order.id hmem
  rw [h.2] at this
  simp only [ordIds, List.mem_map, List.mem_range] at this
  obtain ⟨k, hk, hko⟩ := this
  omega

lemma filter_ne_of_not_mem (pid : Int) (l : List Product)
    (h : pid ∉ l.map Product.id) : l.filter (fun p => p.id != pid) = l := by
  induction l with
  | nil => rfl
  | cons p t ih =>
      simp only [List.map_cons, List.mem_cons, not_or] at h
      have hne : (p.id != pid) = true := by
        simp only [bne_iff_ne, ne_eq]
        intro he
        exact h.1 he.symm
      simp only [List.filter_cons, hne, if_true, ih h.2]

lemma filter_length_of_mem (pid : Int) (l : List Product)
    (hnd : (l.map Product.id).Nodup) (hmem : pid ∈ l.map Product.id) :
    (l.filter (fun p => p.id != pid)).length + 1 = l.length := by
  induction l with
  | nil => simp at hmem
  | cons p t ih =>
      simp only [List.map_cons, List.nodup_cons] at hnd
      by_cases he : p.id = pid
      · have hcond : (p.id != pid) = false := by simp [bne_iff_ne, he]
        simp only [List.filter_cons, hcond, Bool.false_eq_true, if_false]
        rw [filter_ne_of_not_mem pid t (he ▸ hnd.1)]
        simp
      · have hcond : (p.id != pid) = true := by simp [bne_iff_ne, he]
        have hmem2 : pid ∈ t.map Product.id := by
          rcases List.mem_cons.mp hmem with h1 | h2
          · exact absurd h1.symm he
          · exact h2
        simp only [List.filter_cons, hcond, if_true, List.length_cons]
        rw [← ih hnd.2 hmem2]

lemma filter_not_mem (pid : Int) (l : List Product) :
    pid ∉ (l.filter (fun p => p.id != pid)).map Product.id := by
  intro hmem
  simp only [List.mem_map, List.mem_filter, bne_iff_ne] at hmem
  obtain ⟨p, ⟨_, hne⟩, hid⟩ := hmem
  have hne2 : p.id ≠ pid := by simpa using hne
  exact hne2 hid

/-! The claims. -/

/-- C1: for every reachable in-memory state, get_stats returns
totalProducts equal to the length of the product list, totalOrders equal to
the length of the order list, pendingOrders equal to the number of orders
with order_status pending, and totalRevenue equal to the arithmetic sum of
total_price over the orders whose order_status is not cancelled, recomputed
from the current state; on the seed state it returns totalProducts = 8,
totalOrders = 4, pendingOrders = 1 and totalRevenue = 76300. -/
theorem get_stats_spec :
    (∀ s : ServerState,
      (get_stats s).totalProducts = (get_products s).length ∧
      (get_stats s).totalOrders = (get_orders s).length ∧
      (get_stats s).pendingOrders
        = ((get_orders s).filter (fun o => o.order_status == "pending")).length ∧
      (get_stats s).totalRevenue
        = (((get_orders s).filter
            (fun o => o.order_status != "cancelled")).map Order.total_price).sum) ∧
    (get_stats seedState).totalProducts = 8 ∧
    (get_stats seedState).totalOrders = 4 ∧
    (get_stats seedState).pendingOrders = 1 ∧
    (get_stats seedState).totalRevenue = 76300 := by
  refine ⟨fun s => ⟨rfl, rfl, rfl, rfl⟩, by decide, by decide, by decide, ?_⟩
  have h : (get_stats seedState).totalRevenue
      = ((45000 : ℚ) + (25000 + (5000 + (1300 + 0)))) := rfl
  rw [h]
  norm_num

/-- C2: delete_product always reports success; on a reachable state, when
the id is present it removes exactly one entry and the id is absent from a
subsequent product listing, and when the id is absent the collection is
unchanged. -/
theorem delete_product_spec (pid : Int) (s : ServerState) (h : Reachable s) :
    (delete_product pid s).2.status = "success" ∧
    (pid ∈ (get_products s).map Product.id →
      (get_products (delete_product pid s).1).length + 1 = (get_products s).length ∧
      pid ∉ (get_products (delete_product pid s).1).map Product.id) ∧
    (pid ∉ (get_products s).map Product.id →
      get_products (delete_product pid s).1 = get_products s) := by
  have hnd : (s.products.map Product.id).Nodup := (reachable_inv s h).1
  refine ⟨rfl, fun hmem => ⟨?_, ?_⟩, fun hnot => ?_⟩
  · exact filter_length_of_mem pid s.products hnd hmem
  · exact filter_not_mem pid s.products
  · exact filter_ne_of_not_mem pid s.products hnot

/-- Witness for C2 at the seed state and a present id. -/
theorem delete_product_spec_witness :
    Reachable seedState ∧
    (3 : Int) ∈ (get_products seedState).map Product.id ∧
    (delete_product 3 seedState).2.status = "success" ∧
    (get_products (delete_product 3 seedState).1).length + 1
      = (get_products seedState).length ∧
    (3 : Int) ∉ (get_products (delete_product 3 seedState).1).map Product.id := by
  have hr : Reachable seedState := ⟨[], rfl⟩
  have hm : (3 : Int) ∈ (get_products seedState).map Product.id := by decide
  obtain ⟨h1, h2, _⟩ := delete_product_spec 3 seedState hr
  exact ⟨hr, hm, h1, (h2 hm).1, (h2 hm).2⟩

/-- C3: on any reachable state, create_order appends exactly one new order
whose order_status is pending, whose order_date is the current date, whose
id is strictly greater than every previously assigned order id, and whose
customer name, phone, address, total amount and items default to empty
string, zero and the serialized empty item list when absent from the
payload; a subsequent order listing includes the new order. -/
theorem create_order_spec (data : OrderPayload) (today : String)
    (s : ServerState) (h : Reachable s) :
    (create_order data today s).1.orders = s.orders ++ [(create_order data today s).2] ∧
    (create_order data today s).2 ∈ get_orders (create_order data today s).1 ∧
    (create_order data today s).2.order_status = "pending" ∧
    (create_order data today s).2.order_date = today ∧
    (∀ o ∈ get_orders s, o.id < (create_order data today s).2.id) ∧
    (data.customerName = none → (create_order data today s).2.customer_name = "") ∧
    (data.customerPhone = none → (create_order data today s).2.phone = "") ∧
    (data.customerAddress = none → (create_order data today s).2.address = "") ∧
    (data.totalAmount = none → (create_order data today s).2.total_price = 0) ∧
    (data.items = none → (create_order data today s).2.items = "[]") ∧
    (create_order data today s).1.products = s.products := by
  refine ⟨rfl, ?_, rfl, rfl, ?_, ?_, ?_, ?_, ?_, ?_, rfl⟩
  · simp [get_orders, create_order]
  · intro o hmem
    have hle := inv_order_id_le s (reachable_inv s h) o hmem
    have hid : (create_order data today s).2.id = ((s.orders.length + 1 : Nat) : Int) := rfl
    rw [hid]
    push_cast
    omega
  · intro hn; simp [create_order, hn]
  · intro hn; simp [create_order, hn]
  · intro hn; simp [create_order, hn]
  · intro hn; simp [create_order, hn]
  · intro hn; simp [create_order, hn]; rfl

/-- Witness for C3: the empty payload on the seed state. -/
theorem create_order_spec_witness :
    Reachable seedState ∧
    (create_order emptyPayload "2024-02-01" seedState).2.order_status = "pending" ∧
    (create_order emptyPayload "2024-02-01" seedState).2.order_date = "2024-02-01" ∧
    (create_order emptyPayload "2024-02-01" seedState).2.total_price = 0 ∧
    (create_order emptyPayload "2024-02-01" seedState).2.items = "[]" ∧
    (create_order emptyPayload "2024-02-01" seedState).2
      ∈ get_orders (create_order emptyPayload "2024-02-01" seedState).1 := by
  have hr : Reachable seedState := ⟨[], rfl⟩
  obtain ⟨_, hmem, hst, hdt, _, _, _, _, hta, hit, _⟩ :=
    create_order_spec emptyPayload "2024-02-01" seedState hr
  exact ⟨hr, hst, hdt, hta rfl, hit rfl, hmem⟩

/-- C4: on every reachable state (seed state plus any sequence of
delete_product and create_order requests) the id field is unique within the
product collection and within the order collection. The Op transition type
records that delete_product and create_order are the only mutating
operations of the source; the remaining handler with a state-passing
signature, sync_google_sheets, leaves the state unchanged, and the query
handlers are read-only by construction. -/
theorem ids_unique_of_reachable (s : ServerState) (h : Reachable s) :
    (s.products.map Product.id).Nodup ∧
    (s.orders.map Order.id).Nodup ∧
    (sync_google_sheets s).1 = s := by
  have hinv := reachable_inv s h
  exact ⟨hinv.1, inv_orders_nodup s hinv, rfl⟩

/-- Witness for C4 at a state reached by one deletion and one creation. -/
theorem ids_unique_of_reachable_witness :
    Reachable (runOps seedState
      [Op.deleteProduct 2, Op.createOrder emptyPayload "2024-02-01"]) ∧
    ((runOps seedState
      [Op.deleteProduct 2, Op.createOrder emptyPayload "2024-02-01"]).products.map
        Product.id).Nodup ∧
    ((runOps seedState
      [Op.deleteProduct 2, Op.createOrder emptyPayload "2024-02-01"]).orders.map
        Order.id).Nodup := by
  have hr : Reachable (runOps seedState
      [Op.deleteProduct 2, Op.createOrder emptyPayload "2024-02-01"]) :=
    ⟨[Op.deleteProduct 2, Op.createOrder emptyPayload "2024-02-01"], rfl⟩
  obtain ⟨h1, h2, _⟩ := ids_unique_of_reachable _ hr
  exact ⟨hr, h1, h2⟩

/-- C5 counterexample: on the reachable state with five orders (seed plus
one creation), the order appended by a further create_order does not appear
in recentOrders of the next stats call, because recentOrders is the first
five orders of the collection and new orders are appended at the end. -/
theorem recent_orders_counterexample :
    Reachable (runOps seedState [Op.createOrder emptyPayload "2024-02-01"]) ∧
    (create_order emptyPayload "2024-02-02"
        (runOps seedState [Op.createOrder emptyPayload "2024-02-01"])).2
      ∉ (get_stats (create_order emptyPayload "2024-02-02"
        (runOps seedState [Op.createOrder emptyPayload "2024-02-01"])).1).recentOrders :=
  ⟨⟨[Op.createOrder emptyPayload "2024-02-01"], rfl⟩, by decide⟩

/-- C5 as amended: recentOrders is the first five orders of the collection
in collection order; since create_order appends at the end, the order just
created appears in recentOrders of the next stats call exactly when the
collection held fewer than five orders before the creation. -/
theorem recent_orders_spec (data : OrderPayload) (today : String)
    (s : ServerState) (h : Reachable s) :
    (get_stats (create_order data today s).1).recentOrders
      = (create_order data today s).1.orders.take 5 ∧
    (s.orders.length < 5 →
      (create_order data today s).2
        ∈ (get_stats (create_order data today s).1).recentOrders) ∧
    (5 ≤ s.orders.length →
      (create_order data today s).2
        ∉ (get_stats (create_order data today s).1).recentOrders) := by
  have horders : (create_order data today s).1.orders
      = s.orders ++ [(create_order data today s).2] := rfl
  refine ⟨rfl, ?_, ?_⟩
  · intro hlt
    show (create_order data today s).2 ∈ (create_order data today s).1.orders.take 5
    rw [horders, List.take_of_length_le (by simp; omega)]
    simp
  · intro hge hmem
    have hmem2 : (create_order data today s).2 ∈ s.orders.take 5 := by
      rw [show (get_stats (create_order data today s).1).recentOrders
            = (s.orders ++ [(create_order data today s).2]).take 5 from rfl,
          List.take_append_of_le_length hge] at hmem
      exact hmem
    have hmem3 : (create_order data today s).2 ∈ s.orders :=
      List.take_subset 5 s.orders hmem2
    have hle := inv_order_id_le s (reachable_inv s h) _ hmem3
    have hid : (create_order data today s).2.id = ((s.orders.length + 1 : Nat) : Int) := rfl
    rw [hid] at hle
    push_cast at hle
    omega

/-- Witness for C5 as amended: on the seed state, which holds four orders,
the created order is in recentOrders. -/
theorem recent_orders_spec_witness :
    Reachable seedState ∧ seedState.orders.length < 5 ∧
    (create_order emptyPayload "2024-02-01" seedState).2
      ∈ (get_stats (create_order emptyPayload "2024-02-01" seedState).1).recentOrders := by
  have hr : Reachable seedState := ⟨[], rfl⟩
  obtain ⟨_, h2, _⟩ := recent_orders_spec emptyPayload "2024-02-01" seedState hr
  exact ⟨hr, by decide, h2 (by decide)⟩

lemma corsOrigin_mem_okJson (d : Json) : corsOrigin ∈ (okJson d).headers := by
  simp [okJson, corsOrigin]

lemma handle_api_get_cases (fs : String → Option Json) (path : String) :
    (∃ d, handle_api_get fs path = okJson d) ∨
    (∃ c m, handle_api_get fs path = sendError c m ∧ c ≠ 200) := by
  unfold handle_api_get
  repeat' split
  all_goals first
    | exact Or.inl ⟨_, rfl⟩
    | exact Or.inr ⟨404, _, rfl, by decide⟩
    | exact Or.inr ⟨500, _, rfl, by decide⟩

lemma do_POST_cases (cl : Option String) (body path : String) :
    (∃ d, do_POST cl body path = okJson d) ∨
    (∃ c m, do_POST cl body path = sendError c m ∧ c ≠ 200) := by
  unfold do_POST handle_api_post
  repeat' split
  all_goals first
    | exact Or.inl ⟨_, rfl⟩
    | exact Or.inr ⟨404, _, rfl, by decide⟩
    | exact Or.inr ⟨500, _, rfl, by decide⟩

lemma do_DELETE_cases (path : String) :
    (∃ d, do_DELETE path = okJson d) ∨
    (∃ c m, do_DELETE path = sendError c m ∧ c ≠ 200) := by
  unfold do_DELETE
  repeat' split
  all_goals first
    | exact Or.inl ⟨_, rfl⟩
    | exact Or.inr ⟨404, _, rfl, by decide⟩
    | exact Or.inr ⟨400, _, rfl, by decide⟩

lemma sendError_status_ne_200 {c : Nat} {m : String} (hc : c ≠ 200) :
    (sendError c m).status ≠ 200 := hc

/-- C6 counterexample: the API response of the standard-library variant to
a GET for a mapped endpoint whose fixture file is absent is a 404 emitted
through send_error, and it does not carry the Access-Control-Allow-Origin
header, refuting the claim that every API response includes it. -/
theorem cors_headers_counterexample :
    (handle_api_get (fun _ => none) "/admin/api/products").status = 404 ∧
    corsOrigin ∉ (handle_api_get (fun _ => none) "/admin/api/products").headers := by
  decide

/-- C6 as amended: in the standard-library variant every 200 API response
of the GET, POST and DELETE handlers carries Access-Control-Allow-Origin *,
and an OPTIONS request to any path (in particular any API path) is answered
with the fixed 200 preflight response carrying that header plus the allowed
methods and headers, without invoking any business handler; error responses
emitted through send_error carry no CORS header. -/
theorem cors_headers_spec :
    (∀ fs path, (handle_api_get fs path).status = 200 →
      corsOrigin ∈ (handle_api_get fs path).headers) ∧
    (∀ cl body path, (do_POST cl body path).status = 200 →
      corsOrigin ∈ (do_POST cl body path).headers) ∧
    (∀ path, (do_DELETE path).status = 200 →
      corsOrigin ∈ (do_DELETE path).headers) ∧
    (∀ path, do_OPTIONS path = preflightResponse) ∧
    preflightResponse.status = 200 ∧
    corsOrigin ∈ preflightResponse.headers ∧
    ("Access-Control-Allow-Methods", "GET, POST, DELETE, OPTIONS")
      ∈ preflightResponse.headers ∧
    ("Access-Control-Allow-Headers", "Content-Type") ∈ preflightResponse.headers := by
  refine ⟨?_, ?_, ?_, fun _ => rfl, rfl, by decide, by decide, by decide⟩
  · intro fs path h
    rcases handle_api_get_cases fs path with ⟨d, hd⟩ | ⟨c, m, hm, hc⟩
    · rw [hd]; exact corsOrigin_mem_okJson d
    · rw [hm] at h; exact absurd h hc
  · intro cl body path h
    rcases do_POST_cases cl body path with ⟨d, hd⟩ | ⟨c, m, hm, hc⟩
    · rw [hd]; exact corsOrigin_mem_okJson d
    · rw [hm] at h; exact absurd h hc
  · intro path h
    rcases do_DELETE_cases path with ⟨d, hd⟩ | ⟨c, m, hm, hc⟩
    · rw [hd]; exact corsOrigin_mem_okJson d
    · rw [hm] at h; exact absurd h hc

/-- Witness for C6 as amended: a successful fixture GET carries the header,
and OPTIONS on an API path yields the preflight response. -/
theorem cors_headers_spec_witness :
    (handle_api_get (fun _ => some (Json.arr [])) "/admin/api/products").status = 200 ∧
    corsOrigin ∈ (handle_api_get (fun _ => some (Json.arr [])) "/admin/api/products").headers ∧
    do_OPTIONS "/admin/api/products" = preflightResponse := by
  refine ⟨rfl, ?_, ?_⟩
  · exact cors_headers_spec.1 (fun _ => some (Json.arr [])) "/admin/api/products" rfl
  · exact cors_headers_spec.2.2.2.1 "/admin/api/products"

/-- C7 counterexample: in the standard-library variant a POST to the
google-sheets sync path is answered 404, not success, because do_POST only
forwards paths under the API prefix and the sync path does not start with
it, leaving the sync branch of handle_api_post unreachable. -/
theorem sync_counterexample :
    do_POST (some "0") "" "/admin/sync/google-sheets" = sendError 404 "Not found" ∧
    (do_POST (some "0") "" "/admin/sync/google-sheets").status = 404 ∧
    (do_POST (some "0") "" "/admin/sync/google-sheets").status ≠ 200 := by
  exact ⟨rfl, rfl, by decide⟩

/-- C7 as amended: the Flask variants answer the sync endpoint with an
unconditional success and leave the collections untouched (the in-memory
variant returns its state unchanged for every state); the standard-library
variant answers every POST to the sync path with a 404, for every
Content-Length and body. -/
theorem sync_spec :
    (∀ s : ServerState, sync_google_sheets s
      = (s, { status := "success", message := "Data synced successfully" })) ∧
    app_sync_google_sheets = { status := "success", message := "Data synced successfully" } ∧
    (∀ cl body, do_POST cl body "/admin/sync/google-sheets" = sendError 404 "Not found") :=
  ⟨fun _ => rfl, rfl, fun _ _ => rfl⟩

/-- C8 counterexample: an order-creation POST whose body is not JSON is
answered 200 success by the standard-library variant, not 400: the body is
read but never parsed. -/
theorem bad_request_counterexample :
    do_POST (some "16") "this is not json" "/admin/api/orders" = okJson orderCreatedMsg ∧
    (do_POST (some "16") "this is not json" "/admin/api/orders").status = 200 ∧
    (do_POST (some "16") "this is not json" "/admin/api/orders").status ≠ 400 := by
  exact ⟨rfl, rfl, by decide⟩

/-- C8 as amended: in the standard-library variant a DELETE whose id path
segment does not parse as an integer is answered 400 Invalid product ID,
while an order-creation POST with a well-formed Content-Length is answered
200 success regardless of body content, since the body is never parsed. -/
theorem bad_request_spec :
    (∀ path, pyStartsWith path "/admin/products/" = true →
      4 ≤ (pySplit path '/').length →
      pyInt? ((pySplit path '/').getD 3 "") = none →
      do_DELETE path = sendError 400 "Invalid product ID") ∧
    (∀ cl k body, pyInt? cl = some k →
      do_POST (some cl) body "/admin/api/orders" = okJson orderCreatedMsg) := by
  constructor
  · intro path h1 h2 h3
    simp only [do_DELETE, h1, if_true, if_pos h2, h3]
  · intro cl k body hcl
    have hpre : pyStartsWith "/admin/api/orders" "/admin/api/" = true := by decide
    simp only [do_POST, hpre, if_true, handle_api_post, hcl]
    rfl

/-- Witness for C8 as amended: a non-integer id segment and a junk POST
body. -/
theorem bad_request_spec_witness :
    pyStartsWith "/admin/products/abc" "/admin/products/" = true ∧
    pyInt? ((pySplit "/admin/products/abc" '/').getD 3 "") = none ∧
    do_DELETE "/admin/products/abc" = sendError 400 "Invalid product ID" ∧
    pyInt? "10" = some 10 ∧
    do_POST (some "10") "irrelevant" "/admin/api/orders" = okJson orderCreatedMsg := by
  refine ⟨by decide, by decide, ?_, by decide, ?_⟩
  · exact bad_request_spec.1 "/admin/products/abc" (by decide) (by decide) (by decide)
  · exact bad_request_spec.2 "10" 10 "irrelevant" (by decide)

/-- C9 counterexample: in the fixture-backed Flask variant a stats GET with
the backing fixture file missing is answered 200 with an empty JSON list —
a silent success response, not a 404 — because load_mock_data swallows
FileNotFoundError and returns the empty list. -/
theorem not_found_counterexample :
    (app_get_stats (fun _ => none)).status = 200 ∧
    (app_get_stats (fun _ => none)).status ≠ 404 ∧
    (app_get_stats (fun _ => none)).body = Json.arr [] := by
  exact ⟨rfl, by decide, rfl⟩

/-- C9 as amended: the standard-library variant answers an API GET whose
backing fixture file is missing, or whose endpoint is unmapped, with a 404;
a GET for a non-existent static file is answered 404 (static serving
modelled from the spec); the plain-Flask fixture variant instead answers a
missing stats fixture with a 200 empty-list success. -/
theorem not_found_spec :
    (∀ fs path f, api_files.lookup (endpointOf path) = some f → fs f = none →
      handle_api_get fs path = sendError 404 "API endpoint not found") ∧
    (∀ fs path, api_files.lookup (endpointOf path) = none →
      handle_api_get fs path = sendError 404 "API endpoint not found") ∧
    (∀ doc path, doc path = none →
      serve_static doc path = sendError 404 "File not found") ∧
    (∀ fs, fs "api/admin/api/stats.json" = none →
      app_get_stats fs = flaskJson (Json.arr [])) := by
  refine ⟨?_, ?_, ?_, ?_⟩
  · intro fs path f hf hfs
    simp only [handle_api_get, hf, hfs]
  · intro fs path hf
    simp only [handle_api_get, hf]
  · intro doc path hd
    simp only [serve_static, hd]
  · intro fs hfs
    simp only [app_get_stats, load_mock_data,
      show ("api/admin/api/" ++ "stats" ++ ".json") = "api/admin/api/stats.json" from rfl,
      hfs, Option.getD_none]

/-- Witness for C9 as amended, on the empty file system. -/
theorem not_found_spec_witness :
    api_files.lookup (endpointOf "/admin/api/products") = some "api/admin/api/products.json" ∧
    handle_api_get (fun _ => none) "/admin/api/products" = sendError 404 "API endpoint not found" ∧
    api_files.lookup (endpointOf "/admin/api/bogus") = none ∧
    handle_api_get (fun _ => none) "/admin/api/bogus" = sendError 404 "API endpoint not found" ∧
    serve_static (fun _ => none) "/nonexistent.file" = sendError 404 "File not found" ∧
    app_get_stats (fun _ => none) = flaskJson (Json.arr []) := by
  refine ⟨rfl, ?_, rfl, ?_, ?_, ?_⟩
  · exact not_found_spec.1 (fun _ => none) "/admin/api/products" "api/admin/api/products.json"
      rfl rfl
  · exact not_found_spec.2.1 (fun _ => none) "/admin/api/bogus" rfl
  · exact not_found_spec.2.2.1 (fun _ => none) "/nonexistent.file" rfl
  · exact not_found_spec.2.2.2 (fun _ => none) rfl

/-- C10: in the standard-library variant a DELETE whose path starts with
the products prefix and whose fourth slash-separated segment parses as an
integer is answered 200 success, extra trailing segments included; the
handler consumes only the request path and holds no product collection, so
no product is ever removed. -/
theorem delete_always_success_spec (path : String) (k : Int)
    (h1 : pyStartsWith path "/admin/products/" = true)
    (h2 : 4 ≤ (pySplit path '/').length)
    (h3 : pyInt? ((pySplit path '/').getD 3 "") = some k) :
    do_DELETE path = okJson productDeletedMsg ∧ (do_DELETE path).status = 200 := by
  have hresp : do_DELETE path = okJson productDeletedMsg := by
    simp only [do_DELETE, h1, if_true, if_pos h2, h3]
  refine ⟨hresp, ?_⟩
  rw [hresp]
  rfl

/-- Witness for C10 at a path with an extra trailing segment. -/
theorem delete_always_success_spec_witness :
    pyStartsWith "/admin/products/5/extra" "/admin/products/" = true ∧
    pyInt? ((pySplit "/admin/products/5/extra" '/').getD 3 "") = some 5 ∧
    do_DELETE "/admin/products/5/extra" = okJson productDeletedMsg := by
  refine ⟨by decide, by decide, ?_⟩
  exact (delete_always_success_spec "/admin/products/5/extra" 5
    (by decide) (by decide) (by decide)).1

end Agro
